import Mathlib

set_option maxRecDepth 10000

/-!
Shallow embedding of the credential-verification pipeline of `src/server.js`
(an Express server).  The embedded pieces are:

* `makeSign` (lines 23-26): MD5 over a canonical query string.  The MD5
  digest itself (Node's `crypto.createHash('md5')`) is implemented below
  over `Nat` byte lists, little-endian words, per RFC 1321.
* `parseComboLine` (lines 28-37): split on `:`, first part is the email,
  the rest rejoined with `:` is the password, both trimmed.
* the `/api/batch-check` loop (lines 206-316): per-record parsing, token
  selection (`tokens[0] || ''`), request construction, response
  classification, and the fixed 500 ms inter-request delay.  The network
  round trip is modelled as an oracle `net : Nat → Except String JsResponse`
  giving, per record index, either the parsed JSON response or the rejection
  reason caught by the per-record `catch`.
* `/api/start-check` validation and default settings (lines 168-203).
* `/api/save-results` summary counts (lines 332-340).
-/

/-! ## MD5 (RFC 1321), as used by Node's crypto module for `makeSign` -/

/-- One 32-bit left rotation, on a `Nat` already reduced below `2 ^ 32`. -/
def rotl32 (x s : Nat) : Nat :=
  (x * 2 ^ s + x / 2 ^ (32 - s)) % 2 ^ 32

/-- The 64 MD5 sine-table constants `K[i] = floor(2^32 * |sin(i+1)|)`. -/
def md5K : List Nat :=
  [0xd76aa478, 0xe8c7b756, 0x242070db, 0xc1bdceee,
   0xf57c0faf, 0x4787c62a, 0xa8304613, 0xfd469501,
   0x698098d8, 0x8b44f7af, 0xffff5bb1, 0x895cd7be,
   0x6b901122, 0xfd987193, 0xa679438e, 0x49b40821,
   0xf61e2562, 0xc040b340, 0x265e5a51, 0xe9b6c7aa,
   0xd62f105d, 0x02441453, 0xd8a1e681, 0xe7d3fbc8,
   0x21e1cde6, 0xc33707d6, 0xf4d50d87, 0x455a14ed,
   0xa9e3e905, 0xfcefa3f8, 0x676f02d9, 0x8d2a4c8a,
   0xfffa3942, 0x8771f681, 0x6d9d6122, 0xfde5380c,
   0xa4beea44, 0x4bdecfa9, 0xf6bb4b60, 0xbebfbc70,
   0x289b7ec6, 0xeaa127fa, 0xd4ef3085, 0x04881d05,
   0xd9d4d039, 0xe6db99e5, 0x1fa27cf8, 0xc4ac5665,
   0xf4292244, 0x432aff97, 0xab9423a7, 0xfc93a039,
   0x655b59c3, 0x8f0ccc92, 0xffeff47d, 0x85845dd1,
   0x6fa87e4f, 0xfe2ce6e0, 0xa3014314, 0x4e0811a1,
   0xf7537e82, 0xbd3af235, 0x2ad7d2bb, 0xeb86d391]

/-- The per-step rotation amounts. -/
def md5S : List Nat :=
  [7, 12, 17, 22, 7, 12, 17, 22, 7, 12, 17, 22, 7, 12, 17, 22,
   5, 9, 14, 20, 5, 9, 14, 20, 5, 9, 14, 20, 5, 9, 14, 20,
   4, 11, 16, 23, 4, 11, 16, 23, 4, 11, 16, 23, 4, 11, 16, 23,
   6, 10, 15, 21, 6, 10, 15, 21, 6, 10, 15, 21, 6, 10, 15, 21]

/-- The round functions F, G, H, I selected by step index. -/
def md5F (i b c d : Nat) : Nat :=
  if i < 16 then (b &&& c) ||| ((0xffffffff ^^^ b) &&& d)
  else if i < 32 then (d &&& b) ||| ((0xffffffff ^^^ d) &&& c)
  else if i < 48 then b ^^^ c ^^^ d
  else c ^^^ (b ||| (0xffffffff ^^^ d))

/-- The message-word index used at step `i`. -/
def md5G (i : Nat) : Nat :=
  if i < 16 then i
  else if i < 32 then (5 * i + 1) % 16
  else if i < 48 then (3 * i + 5) % 16
  else (7 * i) % 16

/-- Little-endian 32-bit word at word index `g` of a 64-byte block. -/
def wordAt (block : List Nat) (g : Nat) : Nat :=
  block.getD (4 * g) 0 + block.getD (4 * g + 1) 0 * 256 +
    block.getD (4 * g + 2) 0 * 65536 + block.getD (4 * g + 3) 0 * 16777216

/-- One of the 64 MD5 steps: rotate the registers, updating `b`. -/
def md5Step (block : List Nat) (st : Nat × Nat × Nat × Nat) (i : Nat) :
    Nat × Nat × Nat × Nat :=
  let a := st.1
  let b := st.2.1
  let c := st.2.2.1
  let d := st.2.2.2
  let x := (a + md5F i b c d + md5K.getD i 0 + wordAt block (md5G i)) % 2 ^ 32
  (d, (b + rotl32 x (md5S.getD i 0)) % 2 ^ 32, b, c)

/-- Process one 64-byte block: 64 steps, then add back the incoming state. -/
def md5Block (st : Nat × Nat × Nat × Nat) (block : List Nat) :
    Nat × Nat × Nat × Nat :=
  let r := (List.range 64).foldl (md5Step block) st
  ((st.1 + r.1) % 2 ^ 32, (st.2.1 + r.2.1) % 2 ^ 32,
   (st.2.2.1 + r.2.2.1) % 2 ^ 32, (st.2.2.2 + r.2.2.2) % 2 ^ 32)

/-- MD5 padding: append `0x80`, zeros to 56 mod 64, then the 64-bit
little-endian bit length. -/
def md5Pad (msg : List Nat) : List Nat :=
  let L := msg.length
  let n := (L * 8) % 2 ^ 64
  msg ++ (128 :: List.replicate ((119 - L % 64) % 64) 0) ++
    [n % 256, n / 256 % 256, n / 65536 % 256, n / 16777216 % 256,
     n / 2 ^ 32 % 256, n / 2 ^ 40 % 256, n / 2 ^ 48 % 256, n / 2 ^ 56 % 256]

/-- Split a byte list into 64-byte chunks (fuel = length, so structural). -/
def chunksAux : Nat → List Nat → List (List Nat)
  | 0, _ => []
  | _, [] => []
  | fuel + 1, l => l.take 64 :: chunksAux fuel (l.drop 64)

def chunks64 (l : List Nat) : List (List Nat) :=
  chunksAux l.length l

/-- The four 32-bit MD5 state words of a byte message. -/
def md5Words (msg : List Nat) : Nat × Nat × Nat × Nat :=
  (chunks64 (md5Pad msg)).foldl md5Block
    (0x67452301, 0xefcdab89, 0x98badcfe, 0x10325476)

/-- Lowercase hex digit. -/
def hexDigit (n : Nat) : Char :=
  if n < 10 then Char.ofNat (48 + n) else Char.ofNat (87 + n)

def byteHex (b : Nat) : List Char :=
  [hexDigit (b / 16 % 16), hexDigit (b % 16)]

/-- A 32-bit word rendered as 8 hex chars, byte-wise little-endian. -/
def wordHexLE (w : Nat) : List Char :=
  byteHex (w % 256) ++ byteHex (w / 256 % 256) ++
    byteHex (w / 65536 % 256) ++ byteHex (w / 16777216 % 256)

def hexOfWords (w : Nat × Nat × Nat × Nat) : String :=
  ⟨wordHexLE w.1 ++ wordHexLE w.2.1 ++ wordHexLE w.2.2.1 ++ wordHexLE w.2.2.2⟩

/-- The full MD5 hex digest of a byte message (`digest('hex')`). -/
def md5Hex (msg : List Nat) : String :=
  hexOfWords (md5Words msg)

/-- UTF-8 encoding of one scalar value, as `update(_, 'utf8')` performs. -/
def utf8Bytes (c : Char) : List Nat :=
  let n := c.toNat
  if n < 128 then [n]
  else if n < 2048 then [192 + n / 64, 128 + n % 64]
  else if n < 65536 then [224 + n / 4096, 128 + n / 64 % 64, 128 + n % 64]
  else [240 + n / 262144, 128 + n / 4096 % 64, 128 + n / 64 % 64, 128 + n % 64]

def utf8Encode (s : String) : List Nat :=
  (s.data.map utf8Bytes).flatten

/-! ## makeSign (src/server.js lines 23-26) -/

/-- The canonical query string hashed by `makeSign`. -/
def signStr (email e_captcha channel country op : String) : String :=
  "channel=" ++ channel ++ "&country=" ++ country ++ "&e_captcha=" ++
    e_captcha ++ "&email=" ++ email ++ "&op=" ++ op

/-- `makeSign(email, e_captcha, channel = '', country = '', op =
'email_code_login')`: MD5 hex digest of the canonical query string.  Call
sites pass the defaults explicitly. -/
def makeSign (email e_captcha channel country op : String) : String :=
  md5Hex (utf8Encode (signStr email e_captcha channel country op))

/-! ## parseComboLine (src/server.js lines 28-37) -/

/-- JavaScript `String.prototype.split(':')` on the character list of the
string: `""` splits to `[""]`, `":"` to `["", ""]`. -/
def splitCols : List Char → List (List Char)
  | [] => [[]]
  | c :: rest =>
    let ps := splitCols rest
    if c = ':' then [] :: ps
    else (c :: ps.headD []) :: ps.tail

/-- JavaScript `Array.prototype.join(':')`. -/
def joinCols : List (List Char) → List Char
  | [] => []
  | [p] => p
  | p :: ps => p ++ ':' :: joinCols ps

/-- JavaScript `String.prototype.trim()` (whitespace stripped from both
ends; the embedding uses `Char.isWhitespace` for the whitespace class). -/
def jsTrim (l : List Char) : List Char :=
  ((l.dropWhile Char.isWhitespace).reverse.dropWhile Char.isWhitespace).reverse

/-- The parsed form of one combo line (the spec's CredentialRecord:
`email` is the identifier, `password` the secret). -/
structure CredentialRecord where
  email : String
  password : String
deriving DecidableEq, Repr

/-- `parseComboLine`: split on `':'`; with at least two parts, the first
part (trimmed) is the email and the remaining parts rejoined with `':'`
(trimmed) are the password; otherwise `null`. -/
def parseComboLine (line : String) : Option CredentialRecord :=
  match splitCols line.data with
  | p0 :: p1 :: rest => some ⟨⟨jsTrim p0⟩, ⟨jsTrim (joinCols (p1 :: rest))⟩⟩
  | _ => none

/-- The characters strictly before the first `':'` of a line (the spec's
words: "the text before the first `:`"). -/
def beforeColon : List Char → List Char
  | [] => []
  | c :: rest => if c = ':' then [] else c :: beforeColon rest

/-- The characters strictly after the first `':'` of a line (the spec's
words: "everything after the first `:`", the remaining parts rejoined). -/
def afterColon : List Char → List Char
  | [] => []
  | c :: rest => if c = ':' then rest else afterColon rest

/-! ## Response classification (src/server.js lines 275-310) -/

/-- The JSON body the remote endpoint answers with, as the classification
branch reads it: `code` and `message` (absent modelled as `none`), plus the
`redirect` field and the nested `data.redirect` field consulted on
success. -/
structure JsResponse where
  code : Option Int
  message : Option String
  redirect : Option String
  dataRedirect : Option String
deriving DecidableEq, Repr

/-- One element of the `results` array pushed by the batch loop:
`status`, `message`, `email`, and the echoed `code`/`serverMessage`
(absent on the malformed-record and catch paths). -/
structure Outcome where
  status : String
  message : String
  email : String
  code : Option Int
  serverMessage : Option String
deriving DecidableEq, Repr

/-- JavaScript template-literal rendering of a possibly-undefined value. -/
def renderOptStr : Option String → String
  | some s => s
  | none => "undefined"

def renderOptInt : Option Int → String
  | some n => toString n
  | none => "undefined"

/-- JavaScript `a || b` on possibly-undefined strings (the empty string is
falsy). -/
def jsOrStr (a b : Option String) : Option String :=
  match a with
  | some s => if s = "" then b else some s
  | none => b

/-- Lines 275-310: the response-to-outcome mapping of the batch loop.  The
input is either the parsed JSON response or the rejection reason that the
per-record `catch` receives (timeout, network error, unparsable body). -/
def classifyOutcome (email : String) (net : Except String JsResponse) : Outcome :=
  match net with
  | Except.error reason => ⟨"error", reason, email, none, none⟩
  | Except.ok r =>
    if r.code = some 1004 ∧ r.message = some "Error_NoAccount" then
      ⟨"invalid", "No account found", email, r.code, r.message⟩
    else if r.code = some 0 ∧ r.message = some "Error_Success" then
      ⟨"valid", "Success! Redirect: " ++ renderOptStr (jsOrStr r.redirect r.dataRedirect),
        email, r.code, r.message⟩
    else if r.code = some 1004 ∧ r.message = some "Error_FailedTooMuch" then
      ⟨"error", "Too many failed attempts. IP/Proxy banned", email, r.code, r.message⟩
    else if r.code = some 1004 ∧ r.message = some "Error_ECaptcha_VerifyFail" then
      ⟨"error", "Captcha verification failed", email, r.code, r.message⟩
    else
      ⟨"unknown", "Code: " ++ renderOptInt r.code ++ ", Message: " ++ renderOptStr r.message,
        email, r.code, r.message⟩

/-! ## The batch loop (src/server.js lines 206-316) -/

/-- The JSON payload fields of one verification request (lines 226-231):
`op`, `sign`, `params.email`, `params.channel`, `params.e_captcha`,
`params.country`, `lang`. -/
structure VerificationRequest where
  op : String
  sign : String
  email : String
  channel : String
  e_captcha : String
  country : String
  lang : String
deriving DecidableEq, Repr

/-- What one iteration of the batch loop does for one combo line: the
outcome pushed to `results`, the network request issued (if any), and the
`setTimeout` delay performed at the end of the iteration (`continue` on a
malformed record skips it). -/
structure IterResult where
  outcome : Outcome
  request : Option VerificationRequest
  delayMs : Nat
deriving Repr

/-- One iteration of the `for (const combo of batch)` loop.  `net` is the
network oracle for this record: the parsed response, or the rejection
reason the `catch` receives. -/
def recordStep (tokens : List String) (net : Except String JsResponse)
    (combo : String) : IterResult :=
  match parseComboLine combo with
  | none => ⟨⟨"error", "Invalid combo format", combo, none, none⟩, none, 0⟩
  | some parsed =>
    let token := (tokens.head?).getD ""
    ⟨classifyOutcome parsed.email net,
     some ⟨"email_code_login", makeSign parsed.email token "" "" "email_code_login",
           parsed.email, "", token, "", "en"⟩,
     500⟩

/-- The batch loop from record index `i0` on. -/
def batchCheckAux (tokens : List String) (net : Nat → Except String JsResponse) :
    Nat → List String → List IterResult
  | _, [] => []
  | i, combo :: rest => recordStep tokens (net i) combo :: batchCheckAux tokens net (i + 1) rest

/-- The whole `/api/batch-check` loop: one `IterResult` per combo line, in
input order. -/
def batchCheck (batch tokens : List String) (net : Nat → Except String JsResponse) :
    List IterResult :=
  batchCheckAux tokens net 0 batch

/-- The `results` array the endpoint responds with. -/
def batchOutcomes (batch tokens : List String) (net : Nat → Except String JsResponse) :
    List Outcome :=
  (batchCheck batch tokens net).map IterResult.outcome

/-! ## /api/start-check (src/server.js lines 168-203) -/

/-- The settings object (lines 181-187). -/
structure CheckSettings where
  threadCount : Nat
  delayBetweenRequests : Nat
  timeout : Nat
  useProxies : Bool
  rotateProxies : Bool
deriving DecidableEq, Repr

/-- The defaults substituted when the caller supplies no settings. -/
def defaultSettings : CheckSettings :=
  ⟨4, 1000, 30000, false, false⟩

/-- The successful response of `/api/start-check`, together with the
settings placed into `workerData` (which nothing ever reads). -/
structure StartAck where
  message : String
  totalAccounts : Nat
  workerSettings : CheckSettings
deriving DecidableEq, Repr

/-- Lines 172-198: reject when the combo list or the token list is missing
or empty, otherwise acknowledge the run. -/
def startCheck (combos tokens : List String) (settings : Option CheckSettings) :
    Except String StartAck :=
  if combos.isEmpty || tokens.isEmpty then
    Except.error "Combos and tokens are required"
  else
    Except.ok ⟨"Checking started", combos.length, settings.getD defaultSettings⟩

/-! ## /api/save-results summary (src/server.js lines 332-340) -/

/-- The header counts of the export file. -/
structure ResultsSummary where
  total : Nat
  valid : Nat
  invalid : Nat
  errors : Nat
deriving DecidableEq, Repr

/-- Lines 332-340: every count is a fresh filter over the `results` list. -/
def summarize (results : List Outcome) : ResultsSummary :=
  ⟨results.length,
   (results.filter (fun r => r.status = "valid")).length,
   (results.filter (fun r => r.status = "invalid")).length,
   (results.filter (fun r => r.status = "error")).length⟩

/-! ## Helper lemmas -/

theorem splitCols_ne_nil : ∀ (l : List Char), splitCols l ≠ []
  | [] => by simp [splitCols]
  | c :: rest => by
    by_cases hc : c = ':' <;> simp [splitCols, hc]

theorem splitCols_not_mem : ∀ {l : List Char}, ':' ∉ l → splitCols l = [l] := by
  intro l
  induction l with
  | nil => intro _; rfl
  | cons c rest ih =>
    intro h
    have hc : ¬(c = ':') := fun e => h (by simp [e])
    have hr : ':' ∉ rest := fun m => h (List.mem_cons_of_mem _ m)
    simp [splitCols, hc, ih hr]

theorem splitCols_mem : ∀ {l : List Char}, ':' ∈ l →
    splitCols l = beforeColon l :: splitCols (afterColon l) := by
  intro l
  induction l with
  | nil => intro h; cases h
  | cons c rest ih =>
    intro h
    by_cases hc : c = ':'
    · subst hc
      simp [splitCols, beforeColon, afterColon]
    · have hr : ':' ∈ rest := by
        rcases List.mem_cons.mp h with h1 | h1
        · exact absurd h1.symm hc
        · exact h1
      simp [splitCols, beforeColon, afterColon, hc, ih hr]

theorem joinCols_splitCols : ∀ (l : List Char), joinCols (splitCols l) = l := by
  intro l
  induction l with
  | nil => rfl
  | cons c rest ih =>
    rcases e : splitCols rest with _ | ⟨q, qs⟩
    · exact absurd e (splitCols_ne_nil rest)
    · rw [e] at ih
      by_cases hc : c = ':'
      · subst hc
        rw [show splitCols (':' :: rest) = [] :: splitCols rest from by simp [splitCols], e]
        cases qs with
        | nil => simpa [joinCols] using ih
        | cons r rs => simpa [joinCols] using ih
      · rw [show splitCols (c :: rest) =
              (c :: (splitCols rest).headD []) :: (splitCols rest).tail from by
            simp [splitCols, hc], e]
        cases qs with
        | nil => simpa [joinCols] using ih
        | cons r rs => simpa [joinCols] using ih

theorem batchCheckAux_length (tokens : List String) (net : Nat → Except String JsResponse) :
    ∀ (batch : List String) (i0 : Nat),
      (batchCheckAux tokens net i0 batch).length = batch.length := by
  intro batch
  induction batch with
  | nil => intro i0; rfl
  | cons c rest ih => intro i0; simp [batchCheckAux, ih]

theorem batchCheck_length (batch tokens : List String) (net : Nat → Except String JsResponse) :
    (batchCheck batch tokens net).length = batch.length :=
  batchCheckAux_length tokens net batch 0

theorem batchCheckAux_get (tokens : List String) (net : Nat → Except String JsResponse) :
    ∀ (batch : List String) (i0 i : Nat)
      (h1 : i < (batchCheckAux tokens net i0 batch).length) (h2 : i < batch.length),
      (batchCheckAux tokens net i0 batch).get ⟨i, h1⟩ =
        recordStep tokens (net (i0 + i)) (batch.get ⟨i, h2⟩) := by
  intro batch
  induction batch with
  | nil => intro i0 i h1 h2; exact absurd h2 (Nat.not_lt_zero i)
  | cons c rest ih =>
    intro i0 i h1 h2
    cases i with
    | zero => simp [batchCheckAux]
    | succ j =>
      have hj : j < (batchCheckAux tokens net (i0 + 1) rest).length := by
        simpa [batchCheckAux] using Nat.lt_of_succ_lt_succ h1
      have := ih (i0 + 1) j hj (Nat.lt_of_succ_lt_succ h2)
      have e : i0 + 1 + j = i0 + (j + 1) := by omega
      rw [e] at this
      simpa [batchCheckAux] using this

theorem batchCheck_get (batch tokens : List String) (net : Nat → Except String JsResponse)
    (i : Nat) (h1 : i < (batchCheck batch tokens net).length) (h2 : i < batch.length) :
    (batchCheck batch tokens net).get ⟨i, h1⟩ =
      recordStep tokens (net i) (batch.get ⟨i, h2⟩) := by
  have := batchCheckAux_get tokens net batch 0 i h1 h2
  simpa using this

theorem md5Block_lt (st : Nat × Nat × Nat × Nat) (block : List Nat) :
    (md5Block st block).1 < 2 ^ 32 ∧ (md5Block st block).2.1 < 2 ^ 32 ∧
      (md5Block st block).2.2.1 < 2 ^ 32 ∧ (md5Block st block).2.2.2 < 2 ^ 32 := by
  refine ⟨?_, ?_, ?_, ?_⟩ <;> exact Nat.mod_lt _ (by norm_num)

theorem foldl_md5Block_lt (blocks : List (List Nat)) :
    ∀ (st : Nat × Nat × Nat × Nat),
      st.1 < 2 ^ 32 → st.2.1 < 2 ^ 32 → st.2.2.1 < 2 ^ 32 → st.2.2.2 < 2 ^ 32 →
      (blocks.foldl md5Block st).1 < 2 ^ 32 ∧ (blocks.foldl md5Block st).2.1 < 2 ^ 32 ∧
        (blocks.foldl md5Block st).2.2.1 < 2 ^ 32 ∧
        (blocks.foldl md5Block st).2.2.2 < 2 ^ 32 := by
  induction blocks with
  | nil => intro st h1 h2 h3 h4; exact ⟨h1, h2, h3, h4⟩
  | cons b bs ih =>
    intro st _ _ _ _
    have hb := md5Block_lt st b
    exact ih (md5Block st b) hb.1 hb.2.1 hb.2.2.1 hb.2.2.2

theorem md5Words_lt (msg : List Nat) :
    (md5Words msg).1 < 2 ^ 32 ∧ (md5Words msg).2.1 < 2 ^ 32 ∧
      (md5Words msg).2.2.1 < 2 ^ 32 ∧ (md5Words msg).2.2.2 < 2 ^ 32 :=
  foldl_md5Block_lt _ _ (by norm_num) (by norm_num) (by norm_num) (by norm_num)

/-! ## Claim theorems -/

/-- C1: the classifier is total (a total Lean function) and matches the
classification table exactly.  The code renders the table's outcome kinds
as `(status, message)` pairs: valid is status `"valid"` with the redirect
URL (from `redirect` or the nested `data.redirect`) in the message,
invalid is `"invalid"`, rate-limited is status `"error"` with message
`"Too many failed attempts. IP/Proxy banned"`, captcha-failed is status
`"error"` with `"Captcha verification failed"`, a transport failure is
status `"error"` with the failure reason echoed as the message, and every
other `(code, message)` combination falls through to status `"unknown"`
with the raw code and message echoed. -/
theorem C1_classifier_total_table :
    (∀ (e : String) (rd dr : Option String),
        classifyOutcome e (Except.ok ⟨some 0, some "Error_Success", rd, dr⟩) =
          ⟨"valid", "Success! Redirect: " ++ renderOptStr (jsOrStr rd dr), e,
            some 0, some "Error_Success"⟩) ∧
    (∀ (e : String) (rd dr : Option String),
        classifyOutcome e (Except.ok ⟨some 1004, some "Error_NoAccount", rd, dr⟩) =
          ⟨"invalid", "No account found", e, some 1004, some "Error_NoAccount"⟩) ∧
    (∀ (e : String) (rd dr : Option String),
        classifyOutcome e (Except.ok ⟨some 1004, some "Error_FailedTooMuch", rd, dr⟩) =
          ⟨"error", "Too many failed attempts. IP/Proxy banned", e, some 1004,
            some "Error_FailedTooMuch"⟩) ∧
    (∀ (e : String) (rd dr : Option String),
        classifyOutcome e (Except.ok ⟨some 1004, some "Error_ECaptcha_VerifyFail", rd, dr⟩) =
          ⟨"error", "Captcha verification failed", e, some 1004,
            some "Error_ECaptcha_VerifyFail"⟩) ∧
    (∀ (e reason : String),
        classifyOutcome e (Except.error reason) = ⟨"error", reason, e, none, none⟩) ∧
    (∀ (e : String) (c : Option Int) (m rd dr : Option String),
        ¬(c = some 0 ∧ m = some "Error_Success") →
        ¬(c = some 1004 ∧ (m = some "Error_NoAccount" ∨ m = some "Error_FailedTooMuch" ∨
            m = some "Error_ECaptcha_VerifyFail")) →
        classifyOutcome e (Except.ok ⟨c, m, rd, dr⟩) =
          ⟨"unknown", "Code: " ++ renderOptInt c ++ ", Message: " ++ renderOptStr m,
            e, c, m⟩) := by
  refine ⟨?_, ?_, ?_, ?_, ?_, ?_⟩
  · intro e rd dr; simp [classifyOutcome]
  · intro e rd dr; simp [classifyOutcome]
  · intro e rd dr; simp [classifyOutcome]
  · intro e rd dr; simp [classifyOutcome]
  · intro e reason; rfl
  · intro e c m rd dr h1 h2
    have n1 : ¬(c = some 1004 ∧ m = some "Error_NoAccount") :=
      fun h => h2 ⟨h.1, Or.inl h.2⟩
    have n3 : ¬(c = some 1004 ∧ m = some "Error_FailedTooMuch") :=
      fun h => h2 ⟨h.1, Or.inr (Or.inl h.2)⟩
    have n4 : ¬(c = some 1004 ∧ m = some "Error_ECaptcha_VerifyFail") :=
      fun h => h2 ⟨h.1, Or.inr (Or.inr h.2)⟩
    simp only [classifyOutcome]
    rw [if_neg n1, if_neg h1, if_neg n3, if_neg n4]

/-- C1 witness: a concrete unrecognised pair falls through to `unknown`
with code and message echoed. -/
theorem C1_witness :
    classifyOutcome "e@x.com" (Except.ok ⟨some 42, some "Weird", none, none⟩) =
      ⟨"unknown", "Code: " ++ renderOptInt (some 42) ++ ", Message: " ++
        renderOptStr (some "Weird"), "e@x.com", some 42, some "Weird"⟩ :=
  C1_classifier_total_table.2.2.2.2.2 "e@x.com" (some 42) (some "Weird") none none
    (by decide) (by decide)

/-- C2: a run of the batch loop yields exactly one outcome per input
record, positioned at the record's input index; a malformed record is
absorbed as an explicit error outcome (and transport failures are absorbed
by `classifyOutcome`, see C1), so the loop is a total function and no
per-record failure escapes. -/
theorem C2_one_outcome_per_record (batch tokens : List String)
    (net : Nat → Except String JsResponse) (_htok : tokens ≠ []) :
    (batchOutcomes batch tokens net).length = batch.length ∧
    (∀ (i : Nat) (h1 : i < (batchOutcomes batch tokens net).length) (h2 : i < batch.length),
        (batchOutcomes batch tokens net).get ⟨i, h1⟩ =
          (recordStep tokens (net i) (batch.get ⟨i, h2⟩)).outcome) ∧
    (∀ (combo : String) (net1 : Except String JsResponse), parseComboLine combo = none →
        (recordStep tokens net1 combo).outcome =
          ⟨"error", "Invalid combo format", combo, none, none⟩) := by
  refine ⟨?_, ?_, ?_⟩
  · simp [batchOutcomes, batchCheck_length]
  · intro i h1 h2
    have h1' : i < (batchCheck batch tokens net).length := by
      simpa [batchOutcomes] using h1
    simp only [batchOutcomes, List.get_eq_getElem, List.getElem_map]
    rw [← List.get_eq_getElem (batchCheck batch tokens net) ⟨i, h1'⟩,
      batchCheck_get batch tokens net i h1' h2, List.get_eq_getElem]
  · intro combo net1 hp
    simp [recordStep, hp]

/-- C2 witness: a two-record batch (one well-formed record whose attempt
times out, one malformed record) yields exactly two outcomes in input
order. -/
theorem C2_witness :
    (batchOutcomes ["a@x.com:pw", "bad"] ["tok"]
        (fun _ => Except.error "Request timeout")).length = 2 ∧
    (batchOutcomes ["a@x.com:pw", "bad"] ["tok"]
        (fun _ => Except.error "Request timeout")).get ⟨1, by decide⟩ =
      (recordStep ["tok"] (Except.error "Request timeout") "bad").outcome :=
  ⟨(C2_one_outcome_per_record ["a@x.com:pw", "bad"] ["tok"]
      (fun _ => Except.error "Request timeout") (by decide)).1,
   (C2_one_outcome_per_record ["a@x.com:pw", "bad"] ["tok"]
      (fun _ => Except.error "Request timeout") (by decide)).2.1 1 (by decide) (by decide)⟩

/-- C3 counterexample: on the line `"a: b"` everything after the first
`':'` is `" b"`, but the parser trims and yields the password `"b"`, so
the secret is not "exactly everything after the first `:`". -/
theorem C3_counterexample :
    afterColon ("a: b" : String).data = (" b" : String).data ∧
    parseComboLine "a: b" = some ⟨"a", "b"⟩ ∧
    ("b" : String) ≠ " b" := by
  refine ⟨by decide, by decide, by decide⟩

/-- C3 amended: for every line containing at least one `':'`, parsing
yields the text before the first `':'` with surrounding whitespace trimmed
as the identifier, and everything after the first `':'` (the remaining
parts rejoined with `':'`) with surrounding whitespace trimmed as the
secret; a line with no `':'` yields no record. -/
theorem C3_split_trim_on_first_colon :
    (∀ line : String, ':' ∈ line.data →
        parseComboLine line =
          some ⟨⟨jsTrim (beforeColon line.data)⟩, ⟨jsTrim (afterColon line.data)⟩⟩) ∧
    (∀ line : String, ':' ∉ line.data → parseComboLine line = none) := by
  constructor
  · intro line h
    have hs := splitCols_mem h
    rcases e : splitCols (afterColon line.data) with _ | ⟨q, qs⟩
    · exact absurd e (splitCols_ne_nil _)
    · have hj : joinCols (q :: qs) = afterColon line.data := by
        rw [← e]; exact joinCols_splitCols _
      rw [e] at hs
      simp only [parseComboLine]
      rw [hs]
      simp [hj]
  · intro line h
    simp [parseComboLine, splitCols_not_mem h]

/-- C3 amended witness: the spec's own example line, with the secret
containing a further `':'`. -/
theorem C3_amended_witness :
    parseComboLine "user@x.com:pa:ss" =
      some ⟨⟨jsTrim (beforeColon ("user@x.com:pa:ss" : String).data)⟩,
            ⟨jsTrim (afterColon ("user@x.com:pa:ss" : String).data)⟩⟩ ∧
    parseComboLine "user@x.com:pa:ss" = some ⟨"user@x.com", "pa:ss"⟩ :=
  ⟨C3_split_trim_on_first_colon.1 "user@x.com:pa:ss" (by decide), by decide⟩

/-- C4 counterexample: the batch loop itself rejects nothing.  With an
empty token list and one well-formed record it still produces an outcome
and issues a network request (so the run is not "rejected ... before the
Running state is entered: zero outcomes are produced and no network call
is made"). -/
theorem C4_counterexample :
    (batchOutcomes ["a@x.com:pw"] [] (fun _ => Except.error "Request timeout")).length = 1 ∧
    (batchCheck ["a@x.com:pw"] [] (fun _ => Except.error "Request timeout")).map
        (fun r => r.request.isSome) = [true] := by
  exact ⟨rfl, rfl⟩

/-- C4 amended: only the `/api/start-check` endpoint rejects an empty
combo list or an empty token list, synchronously, with the caller-input
error "Combos and tokens are required" and no further processing; the
batch loop itself performs no such validation — an empty record list given
to it yields zero outcomes without rejection, and an empty token list does
not prevent attempts (C10). -/
theorem C4_start_check_validation :
    (∀ (combos tokens : List String) (settings : Option CheckSettings),
        combos = [] ∨ tokens = [] →
        startCheck combos tokens settings = Except.error "Combos and tokens are required") ∧
    (∀ (tokens : List String) (net : Nat → Except String JsResponse),
        batchOutcomes [] tokens net = []) := by
  constructor
  · intro combos tokens settings h
    rcases h with h | h <;> subst h <;> simp [startCheck]
  · intro tokens net; rfl

/-- C4 amended witness: an empty combo list is rejected although tokens
are present, and an empty token list is rejected although combos are
present. -/
theorem C4_amended_witness :
    startCheck [] ["tok"] none = Except.error "Combos and tokens are required" ∧
    startCheck ["a@x.com:pw"] [] none = Except.error "Combos and tokens are required" :=
  ⟨C4_start_check_validation.1 [] ["tok"] none (Or.inl rfl),
   C4_start_check_validation.1 ["a@x.com:pw"] [] none (Or.inr rfl)⟩

/-- C5: the export summary is derived entirely from the outcome sequence:
for any run of the batch loop, and any truncation of its outcome list
(modelling a cancelled run), each summary count equals the number of
outcomes whose status matches, and the total equals the list length.
There are no separately maintained counters anywhere in the code. -/
theorem C5_summary_counts_outcomes (batch tokens : List String)
    (net : Nat → Except String JsResponse) (k : Nat) :
    summarize ((batchOutcomes batch tokens net).take k) =
      ⟨((batchOutcomes batch tokens net).take k).length,
       ((batchOutcomes batch tokens net).take k).countP (fun r => r.status = "valid"),
       ((batchOutcomes batch tokens net).take k).countP (fun r => r.status = "invalid"),
       ((batchOutcomes batch tokens net).take k).countP (fun r => r.status = "error")⟩ := by
  simp [summarize, List.countP_eq_length_filter]

/-- C6 counterexample: "changing exactly one argument always changes the
signature" cannot hold of an MD5-based signature: the digest has at most
`2 ^ 128` values while the argument being varied ranges over the
infinitely many strings, so two distinct channel values with identical
signatures exist (pigeonhole; the witnesses are not computed
explicitly). -/
theorem C6_counterexample :
    ¬ (∀ ch1 ch2 : String, ch1 ≠ ch2 →
        makeSign "user@x.com" "tok" ch1 "" "email_code_login" ≠
          makeSign "user@x.com" "tok" ch2 "" "email_code_login") := by
  intro hclaim
  haveI : Infinite String :=
    Infinite.of_injective (fun n : Nat => String.mk (List.replicate n 'a'))
      (fun m n h => by simpa using congrArg (fun s => s.data.length) h)
  obtain ⟨x, y, hxy, hfe⟩ :=
    Finite.exists_ne_map_eq_of_infinite
      (fun ch : String =>
        ((⟨(md5Words (utf8Encode (signStr "user@x.com" "tok" ch "" "email_code_login"))).1,
            (md5Words_lt _).1⟩ : Fin (2 ^ 32)),
         (⟨(md5Words (utf8Encode (signStr "user@x.com" "tok" ch "" "email_code_login"))).2.1,
            (md5Words_lt _).2.1⟩ : Fin (2 ^ 32)),
         (⟨(md5Words (utf8Encode (signStr "user@x.com" "tok" ch "" "email_code_login"))).2.2.1,
            (md5Words_lt _).2.2.1⟩ : Fin (2 ^ 32)),
         (⟨(md5Words (utf8Encode (signStr "user@x.com" "tok" ch "" "email_code_login"))).2.2.2,
            (md5Words_lt _).2.2.2⟩ : Fin (2 ^ 32))))
  refine hclaim x y hxy ?_
  simp only [Prod.mk.injEq, Fin.mk.injEq] at hfe
  obtain ⟨h1, h2, h3, h4⟩ := hfe
  unfold makeSign md5Hex hexOfWords
  rw [h1, h2, h3, h4]

/-- C6 amended: `makeSign` is deterministic (a pure function of its five
arguments), and changing exactly one argument while holding the others
fixed always changes the canonical signing string fed to the digest — so
two such argument tuples can only share a signature through an MD5
collision on distinct inputs. -/
theorem C6_sign_deterministic_and_injective_input :
    (∀ e t ch co o : String, makeSign e t ch co o = makeSign e t ch co o) ∧
    (∀ e t co o ch1 ch2 : String,
        signStr e t ch1 co o = signStr e t ch2 co o → ch1 = ch2) ∧
    (∀ e t ch o co1 co2 : String,
        signStr e t ch co1 o = signStr e t ch co2 o → co1 = co2) ∧
    (∀ e ch co o t1 t2 : String,
        signStr e t1 ch co o = signStr e t2 ch co o → t1 = t2) ∧
    (∀ t ch co o e1 e2 : String,
        signStr e1 t ch co o = signStr e2 t ch co o → e1 = e2) ∧
    (∀ e t ch co o1 o2 : String,
        signStr e t ch co o1 = signStr e t ch co o2 → o1 = o2) := by
  refine ⟨fun e t ch co o => rfl, ?_, ?_, ?_, ?_, ?_⟩
  · intro e t co o ch1 ch2 h
    have hd := congrArg String.data h
    simp only [signStr, String.data_append, List.append_assoc] at hd
    replace hd := List.append_cancel_left hd
    exact congrArg String.mk (List.append_cancel_right hd)
  · intro e t ch o co1 co2 h
    have hd := congrArg String.data h
    simp only [signStr, String.data_append, List.append_assoc] at hd
    iterate 3 replace hd := List.append_cancel_left hd
    exact congrArg String.mk (List.append_cancel_right hd)
  · intro e ch co o t1 t2 h
    have hd := congrArg String.data h
    simp only [signStr, String.data_append, List.append_assoc] at hd
    iterate 5 replace hd := List.append_cancel_left hd
    exact congrArg String.mk (List.append_cancel_right hd)
  · intro t ch co o e1 e2 h
    have hd := congrArg String.data h
    simp only [signStr, String.data_append, List.append_assoc] at hd
    iterate 7 replace hd := List.append_cancel_left hd
    exact congrArg String.mk (List.append_cancel_right hd)
  · intro e t ch co o1 o2 h
    have hd := congrArg String.data h
    simp only [signStr, String.data_append, List.append_assoc] at hd
    iterate 9 replace hd := List.append_cancel_left hd
    exact congrArg String.mk hd

/-- C6 amended witness: a concrete single-field variation of the signing
string is recovered exactly. -/
theorem C6_amended_witness :
    makeSign "a@x.com" "tok" "" "" "email_code_login" =
      makeSign "a@x.com" "tok" "" "" "email_code_login" ∧
    ("chanA" : String) = "chanA" :=
  ⟨C6_sign_deterministic_and_injective_input.1 "a@x.com" "tok" "" "" "email_code_login",
   C6_sign_deterministic_and_injective_input.2.1 "a@x.com" "tok" "" "email_code_login"
     "chanA" "chanA" rfl⟩

/-- C7: under the baseline policy (`tokens[0] || ''`), every well-formed
record of a batch with a non-empty token list is attempted with the first
token, regardless of the record's index. -/
theorem C7_first_token_for_every_record (batch tokens : List String)
    (net : Nat → Except String JsResponse) (i : Nat)
    (h1 : i < (batchCheck batch tokens net).length) (h2 : i < batch.length)
    (t : String) (rest : List String) (htok : tokens = t :: rest)
    (rec : CredentialRecord) (hp : parseComboLine (batch.get ⟨i, h2⟩) = some rec) :
    ((batchCheck batch tokens net).get ⟨i, h1⟩).request =
      some ⟨"email_code_login", makeSign rec.email t "" "" "email_code_login",
            rec.email, "", t, "", "en"⟩ := by
  rw [batchCheck_get batch tokens net i h1 h2]
  subst htok
  rw [List.get_eq_getElem] at hp
  simp [recordStep, hp]

/-- C7 witness: the second record of a two-record batch still uses the
first token. -/
theorem C7_witness :
    ((batchCheck ["a@x.com:pw", "b@x.com:pw"] ["tok1", "tok2"]
        (fun _ => Except.error "Request timeout")).get ⟨1, by decide⟩).request =
      some ⟨"email_code_login", makeSign "b@x.com" "tok1" "" "" "email_code_login",
            "b@x.com", "", "tok1", "", "en"⟩ :=
  C7_first_token_for_every_record ["a@x.com:pw", "b@x.com:pw"] ["tok1", "tok2"]
    (fun _ => Except.error "Request timeout") 1 (by decide) (by decide)
    "tok1" ["tok2"] rfl ⟨"b@x.com", "pw"⟩ (by decide)

/-- C8 counterexample: the inter-request wait of the batch loop is the
hardcoded 500 ms of `setTimeout(resolve, 500)`, not the configured
`delayBetweenRequests` (whose default in `/api/start-check` is 1000 ms and
which is never passed to the batch endpoint at all). -/
theorem C8_counterexample :
    defaultSettings.delayBetweenRequests = 1000 ∧ (500 : Nat) ≠ 1000 ∧
    (batchCheck ["a@x.com:pw", "b@x.com:pw"] ["tok"]
        (fun _ => Except.error "Request timeout")).map IterResult.delayMs = [500, 500] := by
  exact ⟨rfl, by decide, rfl⟩

/-- C8 amended: after each iteration the batch loop waits a fixed 500 ms
(skipped via `continue` for a malformed record); `/api/start-check`
defaults `delayBetweenRequests` to 1000 ms, but that setting is never
delivered to or read by the batch loop. -/
theorem C8_fixed_500ms_delay :
    (∀ (batch tokens : List String) (net : Nat → Except String JsResponse) (i : Nat)
        (h1 : i < (batchCheck batch tokens net).length) (h2 : i < batch.length),
        ((batchCheck batch tokens net).get ⟨i, h1⟩).delayMs =
          if (parseComboLine (batch.get ⟨i, h2⟩)).isSome then 500 else 0) ∧
    defaultSettings.delayBetweenRequests = 1000 := by
  constructor
  · intro batch tokens net i h1 h2
    rw [batchCheck_get batch tokens net i h1 h2]
    simp only [List.get_eq_getElem]
    rcases hp : parseComboLine batch[i] with _ | rec
    · simp [recordStep, hp]
    · simp [recordStep, hp]
  · rfl

/-- C8 amended witness: a malformed first record skips the delay, a
well-formed second record waits 500 ms. -/
theorem C8_amended_witness :
    ((batchCheck ["bad", "a@x.com:pw"] ["tok"]
        (fun _ => Except.error "Request timeout")).get ⟨0, by decide⟩).delayMs = 0 ∧
    ((batchCheck ["bad", "a@x.com:pw"] ["tok"]
        (fun _ => Except.error "Request timeout")).get ⟨1, by decide⟩).delayMs = 500 :=
  ⟨(C8_fixed_500ms_delay.1 ["bad", "a@x.com:pw"] ["tok"]
      (fun _ => Except.error "Request timeout") 0 (by decide) (by decide)).trans (by decide),
   (C8_fixed_500ms_delay.1 ["bad", "a@x.com:pw"] ["tok"]
      (fun _ => Except.error "Request timeout") 1 (by decide) (by decide)).trans (by decide)⟩

/-- C9: any line with at least one `':'` passes the `parts.length >= 2`
test — in particular the line `":"` parses to a record with empty email
and empty password, and the loop then builds a request and consults the
network for it instead of yielding the malformed-record outcome. -/
theorem C9_separator_only_line_accepted :
    (∀ line : String, ':' ∈ line.data → (parseComboLine line).isSome = true) ∧
    parseComboLine ":" = some ⟨"", ""⟩ ∧
    (∀ (tokens : List String) (net : Except String JsResponse),
        (recordStep tokens net ":").request.isSome = true ∧
        (recordStep tokens net ":").outcome = classifyOutcome "" net) := by
  refine ⟨?_, by decide, ?_⟩
  · intro line h
    have hs := splitCols_mem h
    rcases e : splitCols (afterColon line.data) with _ | ⟨q, qs⟩
    · exact absurd e (splitCols_ne_nil _)
    · rw [e] at hs
      simp only [parseComboLine]
      rw [hs]
      simp
  · intro tokens net
    exact ⟨rfl, rfl⟩

/-- C9 witness: the line `"::"` (only separators) is accepted. -/
theorem C9_witness : (parseComboLine "::").isSome = true :=
  C9_separator_only_line_accepted.1 "::" (by decide)

/-- C10: the batch loop does not reject an empty token list: for a
well-formed record it falls back to the empty string (`tokens[0] || ''`),
builds the signature over the empty captcha token, issues the request,
and takes its outcome from the network response. -/
theorem C10_empty_token_list_still_attempts (net : Except String JsResponse)
    (combo : String) (rec : CredentialRecord) (h : parseComboLine combo = some rec) :
    (recordStep [] net combo).request =
      some ⟨"email_code_login", makeSign rec.email "" "" "" "email_code_login",
            rec.email, "", "", "", "en"⟩ ∧
    (recordStep [] net combo).outcome = classifyOutcome rec.email net := by
  simp [recordStep, h]

/-- C10 witness: a concrete well-formed record with an empty token list
still produces a request with an empty captcha token. -/
theorem C10_witness :
    (recordStep [] (Except.error "Request timeout") "a@x.com:pw").request =
      some ⟨"email_code_login", makeSign "a@x.com" "" "" "" "email_code_login",
            "a@x.com", "", "", "", "en"⟩ ∧
    (recordStep [] (Except.error "Request timeout") "a@x.com:pw").outcome =
      classifyOutcome "a@x.com" (Except.error "Request timeout") :=
  C10_empty_token_list_still_attempts (Except.error "Request timeout") "a@x.com:pw"
    ⟨"a@x.com", "pw"⟩ (by decide)
